import Mathlib

/-!
Verification development for the MindPal mood classifier.

The definitions below are a shallow embedding of `analyzeMoodFromText`
and of the conversation-text construction in `generateMoodReport`
(`src/unnamed/part_002`).  JavaScript semantics is modelled faithfully:
`String.prototype.split(/\s+/)` keeps leading/trailing empty pieces and
returns a single empty piece on the empty string, `Array.prototype.filter`
preserves order, `toLowerCase` lowers ASCII letters (the word lists and
all relevant tokens are ASCII).
-/

/-- Overall mood label: the `'positive' | 'negative' | 'neutral'` union type. -/
inductive Mood where
  | positive
  | negative
  | neutral
deriving DecidableEq, Repr

/-- Stress level label: the `'low' | 'medium' | 'high'` union type. -/
inductive StressLevel where
  | low
  | medium
  | high
deriving DecidableEq, Repr

/-- The `MoodAnalysis` record returned by the classifier. -/
structure MoodAnalysis where
  overall_mood : Mood
  emotions : List String
  stress_level : StressLevel
  recommendations : List String
  summary : String
deriving DecidableEq, Repr

/-- The `positiveWords` list from `analyzeMoodFromText`. -/
def positiveWords : List String :=
  ["happy", "good", "great", "excellent", "wonderful", "amazing", "love", "joy", "excited"]

/-- The `negativeWords` list from `analyzeMoodFromText`. -/
def negativeWords : List String :=
  ["sad", "bad", "terrible", "awful", "hate", "angry", "depressed", "worried", "anxious"]

/-- The `stressWords` list from `analyzeMoodFromText`. -/
def stressWords : List String :=
  ["stress", "pressure", "overwhelmed", "busy", "tired", "exhausted", "deadline"]

/-- The character class `\s` of a JavaScript regular expression. -/
def isJsSpace (c : Char) : Bool :=
  let n := c.toNat
  n == 9 || n == 10 || n == 11 || n == 12 || n == 13 || n == 32 ||
  n == 160 || n == 0x1680 || (0x2000 ≤ n && n ≤ 0x200a) ||
  n == 0x2028 || n == 0x2029 || n == 0x202f || n == 0x205f ||
  n == 0x3000 || n == 0xfeff

/-- Worker for `splitWs`: `inSpace` records whether the previous character was
whitespace (so a run of whitespace produces a single boundary), `acc` is the
current piece reversed. -/
def splitWsGo (inSpace : Bool) (acc : List Char) : List Char → List (List Char)
  | [] => [acc.reverse]
  | c :: cs =>
    if isJsSpace c then
      if inSpace then splitWsGo true acc cs
      else acc.reverse :: splitWsGo true [] cs
    else splitWsGo false (c :: acc) cs

/-- JavaScript `s.split(/\s+/)` on the character list of `s`: splits at each
maximal run of whitespace, keeping the (possibly empty) pieces before the
first run and after the last one; the empty string yields `[[]]`. -/
def splitWs (s : List Char) : List (List Char) := splitWsGo false [] s

/-- JavaScript `text.toLowerCase()` restricted to ASCII case mapping. -/
def toLowerCase (s : String) : String := String.mk (s.data.map Char.toLower)

/-- The `words` value of `analyzeMoodFromText`: `text.toLowerCase().split(/\s+/)`. -/
def words (text : String) : List String :=
  (splitWs (toLowerCase text).data).map String.mk

/-- `words.filter(word => ws.includes(word)).length`: the counting step shared by
the three counters of `analyzeMoodFromText`. -/
def countIn (ws : List String) (text : String) : Nat :=
  ((words text).filter (fun w => decide (w ∈ ws))).length

/-- `positiveCount` of `analyzeMoodFromText`. -/
def positiveCount (text : String) : Nat := countIn positiveWords text

/-- `negativeCount` of `analyzeMoodFromText`. -/
def negativeCount (text : String) : Nat := countIn negativeWords text

/-- `stressCount` of `analyzeMoodFromText`. -/
def stressCount (text : String) : Nat := countIn stressWords text

/-- The `overall_mood` computation of `analyzeMoodFromText`. -/
def moodOf (pc nc : Nat) : Mood :=
  if pc > nc then Mood.positive
  else if nc > pc then Mood.negative
  else Mood.neutral

/-- The `stress_level` computation of `analyzeMoodFromText`. -/
def stressOf (sc : Nat) : StressLevel :=
  if sc > 3 then StressLevel.high
  else if sc > 1 then StressLevel.medium
  else StressLevel.low

/-- The `emotions` list built by `analyzeMoodFromText` (the three conditional
`push` pairs, in source order). -/
def emotionsOf (pc nc sc : Nat) : List String :=
  (if pc > 0 then ["happiness", "contentment"] else []) ++
  (if nc > 0 then ["sadness", "frustration"] else []) ++
  (if sc > 0 then ["stress", "anxiety"] else [])

/-- The `recommendations` list built by `analyzeMoodFromText`. -/
def recommendationsOf (m : Mood) (st : StressLevel) : List String :=
  (if m = Mood.negative then
    ["Consider practicing mindfulness or meditation",
     "Reach out to friends or family for support"]
   else []) ++
  (if st = StressLevel.high then
    ["Take regular breaks throughout your day",
     "Try deep breathing exercises"]
   else [])

/-- String interpolation of a `Mood` value. -/
def moodStr : Mood → String
  | Mood.positive => "positive"
  | Mood.negative => "negative"
  | Mood.neutral => "neutral"

/-- String interpolation of a `StressLevel` value. -/
def stressStr : StressLevel → String
  | StressLevel.low => "low"
  | StressLevel.medium => "medium"
  | StressLevel.high => "high"

/-- The `summary` template literal of `analyzeMoodFromText`. -/
def summaryOf (m : Mood) (st : StressLevel) (emotions : List String) : String :=
  "Based on your conversation, you seem to be feeling " ++ moodStr m ++
  " with a " ++ stressStr st ++ " stress level. " ++
  (if emotions.length > 0 then
    "Main emotions detected: " ++ String.intercalate ", " emotions ++ "."
   else "")

/-- The classifier `analyzeMoodFromText` (src/unnamed/part_002, lines 280-322). -/
def analyzeMoodFromText (text : String) : MoodAnalysis :=
  { overall_mood := moodOf (positiveCount text) (negativeCount text)
    emotions := emotionsOf (positiveCount text) (negativeCount text) (stressCount text)
    stress_level := stressOf (stressCount text)
    recommendations :=
      recommendationsOf (moodOf (positiveCount text) (negativeCount text))
        (stressOf (stressCount text))
    summary :=
      summaryOf (moodOf (positiveCount text) (negativeCount text))
        (stressOf (stressCount text))
        (emotionsOf (positiveCount text) (negativeCount text) (stressCount text)) }

/-- `message_type` of a chat message row. -/
inductive MessageType where
  | user
  | ai
deriving DecidableEq, Repr

/-- A row returned by the `chat_messages` query in `generateMoodReport`.
The query selects `content` and `message_type`; `created_at` records the
row's timestamp so that chronological order is expressible in the model
(the code itself never fetches or uses it in `generateMoodReport`). -/
structure FetchedMessage where
  content : String
  message_type : MessageType
  created_at : Nat
deriving DecidableEq, Repr

/-- `messagesData.filter(m => m.message_type === 'user')` in `generateMoodReport`. -/
def userMessages (rows : List FetchedMessage) : List FetchedMessage :=
  rows.filter (fun m => decide (m.message_type = MessageType.user))

/-- `userMessages.map(m => m.content).join(' ')` in `generateMoodReport`:
the text handed to the classifier. -/
def conversationText (rows : List FetchedMessage) : String :=
  String.intercalate " " ((userMessages rows).map (fun m => m.content))

/-- The conversation text as the spec describes it: user-authored contents in
chronological (`created_at`) order, joined by single spaces.  Stated for
comparison with `conversationText`, which uses the rows as returned. -/
def conversationTextChronological (rows : List FetchedMessage) : String :=
  conversationText (rows.insertionSort (fun a b => a.created_at ≤ b.created_at))

lemma splitWsGo_false_cons_space (acc : List Char) (c : Char) (cs : List Char)
    (hc : isJsSpace c = true) :
    splitWsGo false acc (c :: cs) = acc.reverse :: splitWsGo true [] cs := by
  simp [splitWsGo, hc]

lemma splitWsGo_true_cons_space (acc : List Char) (c : Char) (cs : List Char)
    (hc : isJsSpace c = true) :
    splitWsGo true acc (c :: cs) = splitWsGo true acc cs := by
  simp [splitWsGo, hc]

lemma splitWsGo_cons_nonspace (b : Bool) (acc : List Char) (c : Char) (cs : List Char)
    (hc : isJsSpace c = false) :
    splitWsGo b acc (c :: cs) = splitWsGo false (c :: acc) cs := by
  simp [splitWsGo, hc]

lemma countP_splitWsGo_true (q : List Char → Bool) (h : q [] = false) (ys : List Char) :
    (splitWsGo true [] ys).countP q = (splitWsGo false [] ys).countP q := by
  cases ys with
  | nil => rfl
  | cons c cs =>
    cases hc : isJsSpace c
    · rw [splitWsGo_cons_nonspace _ _ _ _ hc, splitWsGo_cons_nonspace _ _ _ _ hc]
    · rw [splitWsGo_true_cons_space _ _ _ hc, splitWsGo_false_cons_space _ _ _ hc]
      simp [List.countP_cons, h]

lemma countP_splitWsGo_append (q : List Char → Bool) (h : q [] = false) (ys : List Char) :
    ∀ xs : List Char,
      (∀ acc, (splitWsGo false acc (xs ++ ' ' :: ys)).countP q =
        (splitWsGo false acc xs).countP q + (splitWsGo false [] ys).countP q) ∧
      ((splitWsGo true [] (xs ++ ' ' :: ys)).countP q =
        (splitWsGo true [] xs).countP q + (splitWsGo false [] ys).countP q) := by
  have hsp : isJsSpace ' ' = true := by decide
  intro xs
  induction xs with
  | nil =>
    constructor
    · intro acc
      rw [List.nil_append, splitWsGo_false_cons_space _ _ _ hsp]
      simp [splitWsGo, List.countP_cons, countP_splitWsGo_true q h ys, h]
      omega
    · rw [List.nil_append, splitWsGo_true_cons_space _ _ _ hsp]
      simp [splitWsGo, List.countP_cons, countP_splitWsGo_true q h ys, h]
  | cons c xs ih =>
    cases hc : isJsSpace c
    · constructor
      · intro acc
        rw [List.cons_append, splitWsGo_cons_nonspace _ _ _ _ hc,
          splitWsGo_cons_nonspace _ _ _ _ hc]
        exact ih.1 (c :: acc)
      · rw [List.cons_append, splitWsGo_cons_nonspace _ _ _ _ hc,
          splitWsGo_cons_nonspace _ _ _ _ hc]
        exact ih.1 [c]
    · constructor
      · intro acc
        rw [List.cons_append, splitWsGo_false_cons_space _ _ _ hc,
          splitWsGo_false_cons_space _ _ _ hc]
        simp [List.countP_cons, ih.2]
        omega
      · rw [List.cons_append, splitWsGo_true_cons_space _ _ _ hc,
          splitWsGo_true_cons_space _ _ _ hc]
        exact ih.2

lemma data_append (s t : String) : (s ++ t).data = s.data ++ t.data := by
  cases s with
  | mk a => cases t with
    | mk b => rfl

lemma toLowerCase_append_space (s t : String) :
    (toLowerCase (s ++ " " ++ t)).data = (toLowerCase s).data ++ ' ' :: (toLowerCase t).data := by
  have h1 : (" " : String).data = [' '] := rfl
  have h2 : Char.toLower ' ' = ' ' := rfl
  simp [toLowerCase, data_append, h1, h2]

lemma countIn_eq_countP (ws : List String) (x : String) :
    countIn ws x = (splitWs (toLowerCase x).data).countP (fun cs => decide (String.mk cs ∈ ws)) := by
  rw [countIn, words, ← List.countP_eq_length_filter, List.countP_map]
  rfl

lemma countIn_append (ws : List String) (h : ("" : String) ∉ ws) (s t : String) :
    countIn ws (s ++ " " ++ t) = countIn ws s + countIn ws t := by
  have hmk : String.mk [] = "" := rfl
  have hq : (fun cs => decide (String.mk cs ∈ ws)) [] = false := by
    simp only [hmk]
    exact decide_eq_false h
  rw [countIn_eq_countP, countIn_eq_countP, countIn_eq_countP, toLowerCase_append_space]
  exact (countP_splitWsGo_append _ hq _ _).1 []

lemma positiveCount_append (s t : String) :
    positiveCount (s ++ " " ++ t) = positiveCount s + positiveCount t :=
  countIn_append _ (by decide) s t

lemma negativeCount_append (s t : String) :
    negativeCount (s ++ " " ++ t) = negativeCount s + negativeCount t :=
  countIn_append _ (by decide) s t

lemma stressCount_append (s t : String) :
    stressCount (s ++ " " ++ t) = stressCount s + stressCount t :=
  countIn_append _ (by decide) s t

lemma analyze_overall_mood (t : String) :
    (analyzeMoodFromText t).overall_mood = moodOf (positiveCount t) (negativeCount t) := rfl

lemma analyze_emotions (t : String) :
    (analyzeMoodFromText t).emotions =
      emotionsOf (positiveCount t) (negativeCount t) (stressCount t) := rfl

lemma analyze_stress_level (t : String) :
    (analyzeMoodFromText t).stress_level = stressOf (stressCount t) := rfl

lemma analyze_recommendations (t : String) :
    (analyzeMoodFromText t).recommendations =
      recommendationsOf (moodOf (positiveCount t) (negativeCount t))
        (stressOf (stressCount t)) := rfl

lemma analyze_summary (t : String) :
    (analyzeMoodFromText t).summary =
      summaryOf (moodOf (positiveCount t) (negativeCount t)) (stressOf (stressCount t))
        (emotionsOf (positiveCount t) (negativeCount t) (stressCount t)) := rfl

lemma moodOf_eq_positive (a b : Nat) : moodOf a b = Mood.positive ↔ b < a := by
  unfold moodOf
  split_ifs with h1 h2 <;> simp <;> omega

lemma moodOf_eq_negative (a b : Nat) : moodOf a b = Mood.negative ↔ a < b := by
  unfold moodOf
  split_ifs with h1 h2 <;> simp <;> omega

lemma moodOf_eq_neutral (a b : Nat) : moodOf a b = Mood.neutral ↔ a = b := by
  unfold moodOf
  split_ifs with h1 h2 <;> simp <;> omega

lemma stressOf_eq_high (n : Nat) : stressOf n = StressLevel.high ↔ 3 < n := by
  unfold stressOf
  split_ifs with h1 h2 <;> simp <;> omega

lemma stressOf_eq_medium (n : Nat) : stressOf n = StressLevel.medium ↔ n = 2 ∨ n = 3 := by
  unfold stressOf
  split_ifs with h1 h2 <;> simp <;> omega

lemma stressOf_eq_low (n : Nat) : stressOf n = StressLevel.low ↔ n ≤ 1 := by
  unfold stressOf
  split_ifs with h1 h2 <;> simp <;> omega

lemma string_append_nil (s : String) : s ++ "" = s := by
  cases s with
  | mk a =>
    show String.mk (a ++ []) = String.mk a
    rw [List.append_nil]

/-- C1: for every input, the overall mood is `positive` exactly when the
positive-word count strictly exceeds the negative-word count, `negative`
exactly when the negative-word count strictly exceeds the positive-word
count, and `neutral` otherwise (zero-vs-zero and every exact tie included);
in particular `"good bad"` yields `neutral`. -/
theorem overall_mood_spec (s : String) :
    ((analyzeMoodFromText s).overall_mood = Mood.positive ↔
      negativeCount s < positiveCount s) ∧
    ((analyzeMoodFromText s).overall_mood = Mood.negative ↔
      positiveCount s < negativeCount s) ∧
    ((analyzeMoodFromText s).overall_mood = Mood.neutral ↔
      positiveCount s = negativeCount s) ∧
    (analyzeMoodFromText "good bad").overall_mood = Mood.neutral :=
  ⟨by rw [analyze_overall_mood]; exact moodOf_eq_positive _ _,
   by rw [analyze_overall_mood]; exact moodOf_eq_negative _ _,
   by rw [analyze_overall_mood]; exact moodOf_eq_neutral _ _,
   by decide⟩

/-- C2: for every input, the stress level is `high` exactly when the
stress-word count exceeds 3, `medium` exactly when it is 2 or 3, and `low`
exactly when it is at most 1; four occurrences of `"stress"` yield `high`. -/
theorem stress_level_spec (s : String) :
    ((analyzeMoodFromText s).stress_level = StressLevel.high ↔ 3 < stressCount s) ∧
    ((analyzeMoodFromText s).stress_level = StressLevel.medium ↔
      stressCount s = 2 ∨ stressCount s = 3) ∧
    ((analyzeMoodFromText s).stress_level = StressLevel.low ↔ stressCount s ≤ 1) ∧
    (analyzeMoodFromText "stress stress stress stress").stress_level = StressLevel.high :=
  ⟨by rw [analyze_stress_level]; exact stressOf_eq_high _,
   by rw [analyze_stress_level]; exact stressOf_eq_medium _,
   by rw [analyze_stress_level]; exact stressOf_eq_low _,
   by decide⟩

/-- C3: each emotion pair appears in the emotions list exactly when its
counter is strictly positive (so the two members of a pair appear together
or not at all), and the list is always a sublist of the fixed sequence
happiness, contentment, sadness, frustration, stress, anxiety, so the pairs
appear in that fixed order regardless of the counters' relative sizes. -/
theorem emotions_pairs_spec (s : String) :
    ("happiness" ∈ (analyzeMoodFromText s).emotions ↔ 0 < positiveCount s) ∧
    ("contentment" ∈ (analyzeMoodFromText s).emotions ↔ 0 < positiveCount s) ∧
    ("sadness" ∈ (analyzeMoodFromText s).emotions ↔ 0 < negativeCount s) ∧
    ("frustration" ∈ (analyzeMoodFromText s).emotions ↔ 0 < negativeCount s) ∧
    ("stress" ∈ (analyzeMoodFromText s).emotions ↔ 0 < stressCount s) ∧
    ("anxiety" ∈ (analyzeMoodFromText s).emotions ↔ 0 < stressCount s) ∧
    (analyzeMoodFromText s).emotions.Sublist
      ["happiness", "contentment", "sadness", "frustration", "stress", "anxiety"] := by
  rw [analyze_emotions]
  rcases Nat.eq_zero_or_pos (positiveCount s) with hp | hp <;>
    rcases Nat.eq_zero_or_pos (negativeCount s) with hn | hn <;>
      rcases Nat.eq_zero_or_pos (stressCount s) with hs | hs <;>
        simp [emotionsOf, hp, hn, hs, Nat.pos_iff_ne_zero] <;> decide

/-- C5: the classifier is a total function, and for every input the overall
mood is one of the three mood labels and the stress level one of the three
stress labels (enum closure). -/
theorem totality_enum_closure (s : String) :
    ((analyzeMoodFromText s).overall_mood = Mood.positive ∨
     (analyzeMoodFromText s).overall_mood = Mood.negative ∨
     (analyzeMoodFromText s).overall_mood = Mood.neutral) ∧
    ((analyzeMoodFromText s).stress_level = StressLevel.low ∨
     (analyzeMoodFromText s).stress_level = StressLevel.medium ∨
     (analyzeMoodFromText s).stress_level = StressLevel.high) := by
  constructor
  · cases h : (analyzeMoodFromText s).overall_mood <;> simp
  · cases h : (analyzeMoodFromText s).stress_level <;> simp

set_option maxRecDepth 8192 in
/-- C6: the empty input yields mood `neutral`, stress `low`, empty emotions
and recommendations, a summary without an emotion clause, and all three
word counts are zero. -/
theorem empty_input_spec :
    analyzeMoodFromText "" =
      { overall_mood := Mood.neutral
        emotions := []
        stress_level := StressLevel.low
        recommendations := []
        summary :=
          "Based on your conversation, you seem to be feeling neutral with a low stress level. " } ∧
    positiveCount "" = 0 ∧ negativeCount "" = 0 ∧ stressCount "" = 0 ∧
    ¬ (("Main emotions detected" : String).data <:+: ((analyzeMoodFromText "").summary).data) := by
  decide

/-- C7: the two mindfulness/support recommendations appear exactly when the
overall mood is `negative`, the two break/breathing recommendations exactly
when the stress level is `high`; the list is always a sublist of those four
strings in that fixed order (so both blocks co-occur in order, up to 4
entries), and when neither condition holds the list is empty. -/
theorem recommendations_spec (s : String) :
    ("Consider practicing mindfulness or meditation" ∈ (analyzeMoodFromText s).recommendations ↔
      (analyzeMoodFromText s).overall_mood = Mood.negative) ∧
    ("Reach out to friends or family for support" ∈ (analyzeMoodFromText s).recommendations ↔
      (analyzeMoodFromText s).overall_mood = Mood.negative) ∧
    ("Take regular breaks throughout your day" ∈ (analyzeMoodFromText s).recommendations ↔
      (analyzeMoodFromText s).stress_level = StressLevel.high) ∧
    ("Try deep breathing exercises" ∈ (analyzeMoodFromText s).recommendations ↔
      (analyzeMoodFromText s).stress_level = StressLevel.high) ∧
    (analyzeMoodFromText s).recommendations.Sublist
      ["Consider practicing mindfulness or meditation",
       "Reach out to friends or family for support",
       "Take regular breaks throughout your day",
       "Try deep breathing exercises"] ∧
    ((analyzeMoodFromText s).overall_mood ≠ Mood.negative →
      (analyzeMoodFromText s).stress_level ≠ StressLevel.high →
      (analyzeMoodFromText s).recommendations = []) := by
  rw [analyze_recommendations, analyze_overall_mood, analyze_stress_level]
  by_cases hm : moodOf (positiveCount s) (negativeCount s) = Mood.negative <;>
    by_cases hs : stressOf (stressCount s) = StressLevel.high <;>
      simp [recommendationsOf, hm, hs]

/-- C7 witness: for the empty input neither condition holds and the
recommendations list is empty. -/
theorem recommendations_spec_witness :
    (analyzeMoodFromText "").recommendations = [] :=
  (recommendations_spec "").2.2.2.2.2 (by decide) (by decide)

/-- C8: the summary is the templated sentence reporting overall mood and
stress level; the comma-joined emotion clause is appended exactly when the
emotions list is non-empty, and is omitted entirely when it is empty. -/
theorem summary_spec (s : String) :
    ((analyzeMoodFromText s).emotions = [] →
      (analyzeMoodFromText s).summary =
        "Based on your conversation, you seem to be feeling " ++
          moodStr (analyzeMoodFromText s).overall_mood ++ " with a " ++
          stressStr (analyzeMoodFromText s).stress_level ++ " stress level. ") ∧
    ((analyzeMoodFromText s).emotions ≠ [] →
      (analyzeMoodFromText s).summary =
        "Based on your conversation, you seem to be feeling " ++
          moodStr (analyzeMoodFromText s).overall_mood ++ " with a " ++
          stressStr (analyzeMoodFromText s).stress_level ++ " stress level. " ++
          ("Main emotions detected: " ++
            String.intercalate ", " (analyzeMoodFromText s).emotions ++ ".")) := by
  rw [analyze_summary, analyze_overall_mood, analyze_stress_level, analyze_emotions]
  constructor
  · intro h
    rw [summaryOf, h]
    simp [string_append_nil]
  · intro h
    rw [summaryOf]
    simp [h, List.length_pos]

/-- C8 witness: the empty input takes the no-emotions branch and the input
`"happy"` takes the emotion-clause branch. -/
theorem summary_spec_witness :
    (analyzeMoodFromText "").summary =
      "Based on your conversation, you seem to be feeling " ++
        moodStr (analyzeMoodFromText "").overall_mood ++ " with a " ++
        stressStr (analyzeMoodFromText "").stress_level ++ " stress level. " ∧
    (analyzeMoodFromText "happy").summary =
      "Based on your conversation, you seem to be feeling " ++
        moodStr (analyzeMoodFromText "happy").overall_mood ++ " with a " ++
        stressStr (analyzeMoodFromText "happy").stress_level ++ " stress level. " ++
        ("Main emotions detected: " ++
          String.intercalate ", " (analyzeMoodFromText "happy").emotions ++ ".") :=
  ⟨(summary_spec "").1 (by decide), (summary_spec "happy").2 (by decide)⟩


/-- C4 counterexample: the claim says the empty input yields zero tokens,
but `"".split(/\s+/)` yields the single empty-string token, so `words ""`
is `[""]`, not `[]`. -/
theorem tokenize_empty_counterexample : words "" = [""] ∧ words "" ≠ [] := by
  decide

/-- C4 (amended): the classifier lowercases and splits on runs of
whitespace, the empty input yielding one empty-string token (which belongs
to no word set, so all counts are zero) rather than zero tokens; counting
is by exact string equality after lowercasing, every occurrence of a
repeated word counts, `"HAPPY"` is counted identically to `"happy"`, and a
punctuation-attached token such as `"happy."` or `"good."` is never
counted. -/
theorem tokenize_matching_spec :
    (words "" = [""] ∧ positiveCount "" = 0 ∧ negativeCount "" = 0 ∧ stressCount "" = 0) ∧
    (∀ s : String,
      positiveCount (s ++ " " ++ "HAPPY") = positiveCount s + 1 ∧
      positiveCount (s ++ " " ++ "happy") = positiveCount s + 1 ∧
      positiveCount (s ++ " " ++ "happy.") = positiveCount s ∧
      positiveCount (s ++ " " ++ "good.") = positiveCount s ∧
      positiveCount (s ++ " " ++ "happy happy") = positiveCount s + 2) := by
  have hA : positiveCount "HAPPY" = 1 := by decide
  have hB : positiveCount "happy" = 1 := by decide
  have hC : positiveCount "happy." = 0 := by decide
  have hD : positiveCount "good." = 0 := by decide
  have hE : positiveCount "happy happy" = 2 := by decide
  refine ⟨by decide, fun s => ⟨?_, ?_, ?_, ?_, ?_⟩⟩
  · rw [positiveCount_append, hA]
  · rw [positiveCount_append, hB]
  · rw [positiveCount_append, hC, Nat.add_zero]
  · rw [positiveCount_append, hD, Nat.add_zero]
  · rw [positiveCount_append, hE]

/-- C9 counterexample: the `chat_messages` query of `generateMoodReport`
has no ordering clause, so the rows reach the join in whatever order the
database returns them; when two user rows arrive with the later-created one
first, the joined text differs from the chronological concatenation. -/
theorem conversationText_order_counterexample :
    conversationText
        [{ content := "later", message_type := MessageType.user, created_at := 2 },
         { content := "earlier", message_type := MessageType.user, created_at := 1 }] ≠
      conversationTextChronological
        [{ content := "later", message_type := MessageType.user, created_at := 2 },
         { content := "earlier", message_type := MessageType.user, created_at := 1 }] := by
  decide

/-- C9 (amended): the text passed to the classifier is the concatenation of
exactly the user-authored message contents of the session, in the order the
database returns the rows (the query has no ordering clause, so
chronological order is not guaranteed), joined by single spaces; AI
messages are excluded and removing an AI message anywhere leaves the text
unchanged. -/
theorem conversationText_spec :
    (∀ rows : List FetchedMessage,
      conversationText rows =
        String.intercalate " "
          ((rows.filter (fun m => decide (m.message_type = MessageType.user))).map
            (fun m => m.content))) ∧
    (∀ pre post : List FetchedMessage, ∀ m : FetchedMessage,
      m.message_type = MessageType.ai →
        conversationText (pre ++ m :: post) = conversationText (pre ++ post)) := by
  constructor
  · intro rows
    rfl
  · intro pre post m h
    unfold conversationText userMessages
    rw [List.filter_append, List.filter_append, List.filter_cons]
    simp [h]

/-- C9 witness: an AI reply row does not contribute to the joined text. -/
theorem conversationText_spec_witness :
    conversationText
        [{ content := "hello", message_type := MessageType.user, created_at := 1 },
         { content := "reply", message_type := MessageType.ai, created_at := 2 }] =
      conversationText
        [{ content := "hello", message_type := MessageType.user, created_at := 1 }] :=
  conversationText_spec.2
    [{ content := "hello", message_type := MessageType.user, created_at := 1 }] []
    { content := "reply", message_type := MessageType.ai, created_at := 2 } rfl

/-- C10: the three word lists are pairwise disjoint (so a token increments
at most one counter); appending one whitespace-separated stress-list word
leaves the overall mood unchanged, and appending one positive- or
negative-list word leaves the stress level unchanged. -/
theorem word_lists_disjoint_spec :
    (∀ w ∈ positiveWords, w ∉ negativeWords ∧ w ∉ stressWords) ∧
    (∀ w ∈ negativeWords, w ∉ stressWords) ∧
    (∀ s : String, ∀ w ∈ stressWords,
      (analyzeMoodFromText (s ++ " " ++ w)).overall_mood =
        (analyzeMoodFromText s).overall_mood) ∧
    (∀ s : String, ∀ w : String, w ∈ positiveWords ∨ w ∈ negativeWords →
      (analyzeMoodFromText (s ++ " " ++ w)).stress_level =
        (analyzeMoodFromText s).stress_level) := by
  have hstress : ∀ w ∈ stressWords, positiveCount w = 0 ∧ negativeCount w = 0 := by decide
  have hpos : ∀ w ∈ positiveWords, stressCount w = 0 := by decide
  have hneg : ∀ w ∈ negativeWords, stressCount w = 0 := by decide
  refine ⟨by decide, by decide, ?_, ?_⟩
  · intro s w hw
    rw [analyze_overall_mood, analyze_overall_mood, positiveCount_append,
      negativeCount_append, (hstress w hw).1, (hstress w hw).2, Nat.add_zero, Nat.add_zero]
  · intro s w hw
    rw [analyze_stress_level, analyze_stress_level, stressCount_append]
    rcases hw with hw | hw
    · rw [hpos w hw, Nat.add_zero]
    · rw [hneg w hw, Nat.add_zero]

/-- C10 witness: `"deadline"` is a stress word and appending it preserves the
mood of `"happy"`; `"sad"` is a negative word and appending it preserves the
stress level of `"tired"`; `"happy"` is in no other list. -/
theorem word_lists_disjoint_witness :
    (analyzeMoodFromText ("happy" ++ " " ++ "deadline")).overall_mood =
      (analyzeMoodFromText "happy").overall_mood ∧
    (analyzeMoodFromText ("tired" ++ " " ++ "sad")).stress_level =
      (analyzeMoodFromText "tired").stress_level ∧
    "happy" ∉ negativeWords :=
  ⟨word_lists_disjoint_spec.2.2.1 "happy" "deadline" (by decide),
   word_lists_disjoint_spec.2.2.2 "tired" "sad" (Or.inr (by decide)),
   (word_lists_disjoint_spec.1 "happy" (by decide)).1⟩
